import Mathlib

/-
Shallow embedding of `hologridgen` (`hologrid/__init__.py`), the interactive
boundary editor for pygridgen grids, together with proofs of the specified
properties of its state handling.

Modelling conventions:
  * Node polarity labels are the three characters '+', '0', '-' stored in the
    `color` (and mirrored `polarity`) columns of the PointDraw stream data;
    they are embedded as the inductive type `Polarity`.
  * Numeric values (coordinates, polarity weights) are embedded as `ℚ`:
    the Python code manipulates them with exact-result arithmetic on small
    inputs (sums, one halving for midpoints).
  * The columnar PointDraw stream data {color, polarity, x, y} is the
    structure `NodeData`.
  * `param` fields of `GridEditor` that are plain configuration are gathered
    in the structure `Config`; the external `pygridgen.Focus` object is an
    opaque token, since its contents are never inspected by this repository.
  * Fallible Python code (indexing errors, `len(None)`, KeyError) is embedded
    with `Except String`.
  * The external grid generation routine `pygridgen.Gridgen` is opaque: it is
    passed as a function argument `gen : GridgenArgs → Grid`, so everything
    proved about `_generate_mesh` holds for every substitutable routine.
-/

namespace Hologrid

/-- Node polarity label: the three characters '+', '0' and '-' used in the
`color`/`polarity` columns of the editor's node data. -/
inductive Polarity where
  | pos   -- '+'
  | neu   -- '0'
  | neg   -- '-'
deriving DecidableEq, Repr, Inhabited

/-- Opaque token standing for an external `pygridgen.Focus` object; this
repository never inspects its contents, it only stores it and passes it on. -/
structure Focus where
  tag : ℕ
deriving DecidableEq, Repr

/-- Columnar node data of the PointDraw stream: columns `color`, `polarity`,
`x`, `y` (`_columns = ['color', 'polarity', 'x', 'y']` in the source; the
`polarity` column mirrors `color`). -/
structure NodeData where
  color : List Polarity
  polarity : List Polarity
  x : List ℚ
  y : List ℚ
deriving DecidableEq, Repr

/-- The default `polarity_value` mapping: `{'+': 1, '0': 0, '-': -1}`. -/
def defaultPolarityValue : Polarity → ℚ
  | .pos => 1
  | .neu => 0
  | .neg => -1

/-- Configuration parameters of `GridEditor` (the `param` declarations that
are plain state: algorithmic parameters, user settings and GUI-controllable
values), with the defaults declared in the source.  The pure style
dictionaries (`node_style`, `mesh_style`, `edge_style`,
`start_indicator_style`, `custom_background`) are presentation data handled
by the identical store-and-restore mechanism and are not repeated here. -/
structure Config where
  max_nodes : ℕ := 1000
  ul_idx : ℤ := 0
  polarity_value : Polarity → ℚ := defaultPolarityValue
  focus : Option Focus := none
  width : ℕ := 600
  height : ℕ := 600
  background : String := "None"
  node_size : ℕ := 10
  edge_width : ℕ := 2
  xres : ℕ := 50
  yres : ℕ := 50

/-- The default configuration (every field at its `param` default). -/
def defaultConfig : Config := {}

/-- A 2D coordinate grid as produced by the external generation routine
(`pygridgen.Gridgen`): the `grid.x` and `grid.y` arrays. -/
structure Grid where
  x : List (List ℚ)
  y : List (List ℚ)
deriving DecidableEq, Repr

/-- Arguments of the external mesh generation call
`pgg.Gridgen(x, y, beta, shape=(xres, yres), ul_idx=..., [focus=...])`.
`focus = none` embeds the keyword being omitted when `self.focus is None`. -/
structure GridgenArgs where
  x : List ℚ
  y : List ℚ
  beta : List ℚ
  shape : ℕ × ℕ
  ul_idx : ℤ
  focus : Option Focus

/-- A QuadMesh element's data `(xs, ys, zs)`. -/
structure Mesh where
  xs : List (List ℚ)
  ys : List (List ℚ)
  zs : List (List ℚ)
deriving DecidableEq, Repr

/-- An n-by-m matrix of zeros (`np.zeros((n, m))`). -/
def zerosMat (n m : ℕ) : List (List ℚ) :=
  List.replicate n (List.replicate m 0)

/-- An n-by-m matrix of ones (`np.ones((n, m))`). -/
def onesMat (n m : ℕ) : List (List ℚ) :=
  List.replicate n (List.replicate m 1)

/-- The initial, empty mesh
`hv.QuadMesh((np.zeros((2,2)), np.zeros((2,2)), np.zeros((2,2))))`. -/
def initialQmesh : Mesh :=
  ⟨zerosMat 2 2, zerosMat 2 2, zerosMat 2 2⟩

/-- The editor state: the PointDraw stream's node data, the derived `ready`
flag, the edge-selection state `_selected_edge_index` (initially the Python
`None`, embedded as `none`; once the boundary callback has run it is a list
of selected edge indices), the cached mesh `qmesh`, the generated `grid`
object, and the configuration parameters. -/
structure Editor where
  data : NodeData
  ready : Bool
  selected_edge_index : Option (List ℕ)
  qmesh : Mesh
  grid : Option Grid
  config : Config

/-- Node columns accepted by the constructor (`data` argument restricted to
`_columns`). -/
structure InitColumns where
  color : List Polarity
  polarity : List Polarity
  x : List ℚ
  y : List ℚ
deriving DecidableEq, Repr

/-- `GridEditor.__init__`: column entries of the `data` argument populate the
PointDraw stream, the remaining entries of the record are routed to the
parameters (here: `cfg` and the `ready` flag); with `data = None` every
column is the empty list.  `_selected_edge_index` is initialised to `None`,
`qmesh` to the empty initial QuadMesh, and no grid has been generated. -/
def gridEditorInit (data : Option InitColumns) (cfg : Config) (rdy : Bool) : Editor :=
  { data := match data with
      | none => ⟨[], [], [], []⟩
      | some d => ⟨d.color, d.polarity, d.x, d.y⟩
    ready := rdy
    selected_edge_index := none
    qmesh := initialQmesh
    grid := none
    config := cfg }

/-- `GridEditor()`: construction with no arguments. -/
def gridEditorNew : Editor :=
  gridEditorInit none defaultConfig false

/-- `GridEditor._ready`: readiness predicate.  If `len(data['x']) > 3`, it
returns whether the sum of `polarity_value[c]` over the `color` column equals
4; otherwise it returns `False`. -/
def gridReady (pv : Polarity → ℚ) (d : NodeData) : Bool :=
  if 3 < d.x.length then
    decide ((d.color.map pv).sum = 4)
  else
    false

/-- The polarity toggle applied client-side by `PolarityCallback.source_code`
to a tapped node: `'+' ↦ '0'`, `'0' ↦ '-'`, anything else (i.e. `'-'`) `↦ '+'`. -/
def togglePolarity : Polarity → Polarity
  | .pos => .neu
  | .neu => .neg
  | .neg => .pos

/-- `GridEditor._boundary`: DynamicMap callback drawing the boundary `Path`.
It stores the Selection1D `index` list into `_selected_edge_index`, builds the
list of consecutive edge segments, and re-establishes
`self.ready = self._ready()`.  Returns the updated editor and the drawn
segments. -/
def boundaryCallback (e : Editor) (index : List ℕ) :
    Editor × List ((ℚ × ℚ) × (ℚ × ℚ)) :=
  let lines := (List.range (e.data.x.length - 1)).map (fun i =>
    ((e.data.x.getD i 0, e.data.y.getD i 0),
     (e.data.x.getD (i+1) 0, e.data.y.getD (i+1) 0)))
  ({ e with
      selected_edge_index := some index
      ready := gridReady e.config.polarity_value e.data },
   lines)

/-- The node data of the `hv.Points` element returned by the `points`
callback: columns `x`, `y` and `polarity` (built from the `color` column of
the stream data). -/
structure PointsData where
  x : List ℚ
  y : List ℚ
  polarity : List Polarity
deriving DecidableEq, Repr

/-- `np.insert(arr, k, v)` for `k ≤ arr.length` (out-of-range `k` raises in
numpy and is guarded at the call sites below): insert `v` before position
`k`. -/
def npInsert (l : List α) (k : ℕ) (v : α) : List α :=
  l.take k ++ v :: l.drop k

/-- `GridEditor.points`: DynamicMap callback returning the boundary-node
Points element.  Builds `new_data` from the stream columns (`polarity` is a
copy of `color`); when the `insert_points` event fired, and exactly one edge
is selected, it computes the midpoints of the selected edge's endpoint
coordinates and inserts a new `'+'` node between them at
`point_index = selected + 1`.  Python failure modes are embedded in
`Except`: if the selection is still the initial `None`, the truthiness test
`len(self._selected_edge_index) == 1` raises `TypeError`; an out-of-range
endpoint lookup raises `IndexError`. -/
def pointsCallback (d : NodeData) (sel : Option (List ℕ))
    (insert_points : Bool) : Except String PointsData :=
  let base : PointsData := ⟨d.x, d.y, d.color⟩
  if insert_points then
    match sel with
    | none => .error "TypeError: object of type NoneType has no len()"
    | some idxs =>
      if idxs.length = 1 then
        let point_index := idxs.headI + 1
        match d.x[point_index - 1]?, d.x[point_index]?,
              d.y[point_index - 1]?, d.y[point_index]? with
        | some sx, some ex, some sy, some ey =>
          .ok ⟨npInsert d.x point_index ((sx + ex) / 2),
               npInsert d.y point_index ((sy + ey) / 2),
               npInsert d.color point_index .pos⟩
        | _, _, _, _ => .error "IndexError: index out of bounds"
      else
        .ok base
  else
    .ok base

/-- The complete insert-node command on the editor state: the
`insert_points` event triggers the nodes DynamicMap, which invokes the
`points` callback on the current stream data and current
`_selected_edge_index`.  The callback mutates no editor state (in
particular it does not touch `_selected_edge_index` or the stream data), so
the editor is returned unchanged alongside the displayed points. -/
def insertPointsCommand (e : Editor) : Except String (Editor × PointsData) :=
  match pointsCallback e.data e.selected_edge_index true with
  | .error s => .error s
  | .ok pd => .ok (e, pd)

/-- The numeric polarity weights of the `boundary` GeoDataFrame property:
`[self.polarity_value[c] for c in data['color']]`. -/
def boundaryWeights (pv : Polarity → ℚ) (d : NodeData) : List ℚ :=
  d.color.map pv

/-- Row-wise zip of the three columns of the boundary DataFrame. -/
def rows3 : List ℚ → List ℚ → List ℚ → List (ℚ × ℚ × ℚ)
  | x :: xs, y :: ys, p :: ps => (x, y, p) :: rows3 xs ys ps
  | _, _, _ => []

/-- The rows (x, y, numeric polarity) of the `boundary` GeoDataFrame. -/
def boundaryRows (pv : Polarity → ℚ) (d : NodeData) : List (ℚ × ℚ × ℚ) :=
  rows3 d.x d.y (boundaryWeights pv d)

/-- The shape `(rows, cols)` of a rectangular 2D array. -/
def shape2 (m : List (List ℚ)) : ℕ × ℕ :=
  (m.length, m.headI.length)

/-- The QuadMesh built from a generated grid:
`xdim, ydim = grid.x.shape; zs = np.ones((xdim-1, ydim-1));`
`QuadMesh((grid.x, grid.y, zs))`. -/
def meshOfGrid (g : Grid) : Mesh :=
  ⟨g.x, g.y, onesMat ((shape2 g.x).1 - 1) ((shape2 g.x).2 - 1)⟩

/-- A mesh as displayed by `_generate_mesh`: the element data plus whether
its lines are visible (`visible = false` embeds
`.opts(fill_alpha=0, line_alpha=0)`, `visible = true` embeds the
`mesh_style` options whose `line_alpha` is nonzero). -/
structure DisplayedMesh where
  mesh : Mesh
  visible : Bool
deriving DecidableEq, Repr

/-- `GridEditor._generate_mesh`: if the editor is not ready, or the
`hide_mesh` event fired, or the `generate_mesh` event did not fire, return
the cached `qmesh` with visibility cleared and leave the editor untouched.
Otherwise (ready, generating, not hiding — the trailing `if self.ready`
of the source is necessarily true here) call the external routine with the
boundary x coordinates, y coordinates and numeric polarity weights,
`shape=(xres, yres)`, `ul_idx`, and the focus only when one is set; store
the resulting grid, replace the cached `qmesh` wholesale, and display it. -/
def generateMeshCallback (gen : GridgenArgs → Grid) (e : Editor)
    (generate_mesh hide_mesh : Bool) : Editor × DisplayedMesh :=
  if !e.ready then
    (e, ⟨e.qmesh, false⟩)
  else if hide_mesh || !generate_mesh then
    (e, ⟨e.qmesh, false⟩)
  else
    let g := gen ⟨e.data.x, e.data.y, boundaryWeights e.config.polarity_value e.data,
                  (e.config.xres, e.config.yres), e.config.ul_idx, e.config.focus⟩
    let m := meshOfGrid g
    ({ e with grid := some g, qmesh := m }, ⟨m, true⟩)

/-- `GridEditor._geojson`: build the boundary DataFrame; if it has rows,
hand it to the external GeoJSON driver (`boundary.to_file(bio,
driver='GeoJSON')`, opaque here: any `serializer`), otherwise leave the byte
buffer untouched; return the buffer's contents. -/
def geojsonCallback (serializer : List (ℚ × ℚ × ℚ) → List Char)
    (pv : Polarity → ℚ) (d : NodeData) : List Char :=
  if (boundaryRows pv d).length ≠ 0 then
    serializer (boundaryRows pv d)
  else
    []

/-- Modelled from the spec: the GeoJSON text itself is produced by the
external geopandas/fiona driver, which is absent from this repository, so
structural validity of "a valid GIS geometry-collection serialization" is
taken from the spec's words as a minimal necessary condition: a
feature-collection document is a JSON object, i.e. a nonempty text whose
first character is an opening brace (code 123) and whose last character is a
closing brace (code 125). -/
def isStructurallyValidFeatureCollection (s : List Char) : Bool :=
  !s.isEmpty &&
    (s.headI == Char.ofNat 123) &&
    (s.getLastD (Char.ofNat 32) == Char.ofNat 125)

/-- The serializable state record exposed by the `data` property: the node
columns of the PointDraw stream plus the parameter values, minus the
excluded keys `name`, `fill_alpha` and `grid`. -/
structure EditorRecord where
  color : List Polarity
  polarity : List Polarity
  x : List ℚ
  y : List ℚ
  ready : Bool
  config : Config

/-- `GridEditor.data`: the state accessor producing the serializable
record. -/
def editorData (e : Editor) : EditorRecord :=
  ⟨e.data.color, e.data.polarity, e.data.x, e.data.y, e.ready, e.config⟩

/-- `GridEditor(data)`: constructing an editor from a serializable record —
the column entries populate the PointDraw stream and the remaining entries
are routed to the parameters. -/
def gridEditorFromData (r : EditorRecord) : Editor :=
  gridEditorInit (some ⟨r.color, r.polarity, r.x, r.y⟩) r.config r.ready

/-- The inverted class-level default polarity mapping used by
`from_geopandas`: `color_vals = {v: k for k, v in cls.polarity_value.items()}`
(a lookup of a weight outside {1, 0, -1} raises `KeyError`). -/
def colorVals (q : ℚ) : Option Polarity :=
  if q = 1 then some .pos
  else if q = 0 then some .neu
  else if q = -1 then some .neg
  else none

/-- `[color_vals[p] for p in data['polarity']]`, propagating `KeyError` as
`none`. -/
def mapColorVals : List ℚ → Option (List Polarity)
  | [] => some []
  | q :: qs =>
    match colorVals q, mapColorVals qs with
    | some c, some cs => some (c :: cs)
    | _, _ => none

/-- A row of a boundary GeoDataFrame as consumed by `from_geopandas`:
x and y coordinates and a numeric polarity weight. -/
structure BoundaryRow where
  x : ℚ
  y : ℚ
  polarity : ℚ
deriving DecidableEq, Repr

/-- `GridEditor.from_geopandas`: with an empty DataFrame return
`GridEditor()`; otherwise keep the allowed columns, rebuild the `color`
labels through the inverted default polarity mapping, mirror them into the
`polarity` column, and construct `GridEditor(data)` (all parameters at their
defaults). -/
def from_geopandas (df : List BoundaryRow) : Except String Editor :=
  if df.length = 0 then
    .ok gridEditorNew
  else
    match mapColorVals (df.map (fun r => r.polarity)) with
    | none => .error "KeyError"
    | some colors =>
      .ok (gridEditorInit
            (some ⟨colors, colors, df.map (fun r => r.x), df.map (fun r => r.y)⟩)
            defaultConfig false)

/-- A concrete external generation routine used in witnesses: any
substitutable routine works, the theorems quantify over it. -/
def constGen : GridgenArgs → Grid :=
  fun _ => ⟨zerosMat 3 3, zerosMat 3 3⟩

/-- A concrete external GeoJSON driver used in witnesses and
counterexamples. -/
def sampleSerializer : List (ℚ × ℚ × ℚ) → List Char :=
  fun _ => [Char.ofNat 123, Char.ofNat 125]

end Hologrid

namespace Hologrid

/-! ## Helper lemmas about npInsert -/

theorem npInsert_length (l : List α) (k : ℕ) (v : α) (hk : k ≤ l.length) :
    (npInsert l k v).length = l.length + 1 := by
  unfold npInsert
  simp [List.length_take, List.length_drop, Nat.min_eq_left hk]
  omega

theorem npInsert_getElem?_lt (l : List α) (k : ℕ) (v : α) (hk : k ≤ l.length)
    (j : ℕ) (hj : j < k) : (npInsert l k v)[j]? = l[j]? := by
  unfold npInsert
  have hjk : j < (l.take k).length := by
    simp [List.length_take]; omega
  rw [List.getElem?_append, if_pos hjk]
  simp [List.getElem?_take, hj]

theorem npInsert_getElem?_self (l : List α) (k : ℕ) (v : α) (hk : k ≤ l.length) :
    (npInsert l k v)[k]? = some v := by
  unfold npInsert
  have hlen : (l.take k).length = k := by
    simp [List.length_take, Nat.min_eq_left hk]
  have hge : (l.take k).length ≤ k := le_of_eq hlen
  rw [List.getElem?_append_right hge]
  simp [hlen]

theorem npInsert_getElem?_gt (l : List α) (k : ℕ) (v : α) (hk : k ≤ l.length)
    (j : ℕ) (hj : k ≤ j) : (npInsert l k v)[j + 1]? = l[j]? := by
  unfold npInsert
  have hlen : (l.take k).length = k := by
    simp [List.length_take, Nat.min_eq_left hk]
  have hge : (l.take k).length ≤ j + 1 := by omega
  rw [List.getElem?_append_right hge]
  rw [hlen]
  have : j + 1 - k = (j - k) + 1 := by omega
  rw [this]
  simp [List.getElem?_drop]
  congr 1
  omega

/-! ## Claims -/

/-- C3: one polarity-toggle application maps Positive to Neutral, Neutral to
Negative, and Negative to Positive (a fixed cycle, not a free assignment), so
the toggle composed with itself three times is the identity on polarity
values. -/
theorem C3_toggle_cycles_with_period_three :
    togglePolarity .pos = .neu ∧
    togglePolarity .neu = .neg ∧
    togglePolarity .neg = .pos ∧
    ∀ p : Polarity, togglePolarity (togglePolarity (togglePolarity p)) = p := by
  refine ⟨rfl, rfl, rfl, ?_⟩
  intro p
  cases p <;> rfl

/-- C1: the readiness flag computed by `_ready` is true iff the node count
exceeds 3 and the sum of the nodes' polarity weights (under the
`polarity_value` mapping) equals 4; in particular it is false whenever the
node count is at most 3; and the `_boundary` callback — which runs on every
mutation of the node list — re-establishes `ready = _ready()` on the editor. -/
theorem C1_ready_iff_count_gt3_and_polarity_sum_eq4
    (pv : Polarity → ℚ) (d : NodeData) (e : Editor) (index : List ℕ)
    (hlen : d.color.length = d.x.length) :
    (gridReady pv d = true ↔ 3 < d.color.length ∧ (d.color.map pv).sum = 4) ∧
    (d.color.length ≤ 3 → gridReady pv d = false) ∧
    (boundaryCallback e index).1.ready = gridReady e.config.polarity_value e.data := by
  refine ⟨?_, ?_, rfl⟩
  · unfold gridReady
    rw [hlen]
    by_cases h : 3 < d.x.length
    · simp [h]
    · simp [h]
  · intro hle
    unfold gridReady
    rw [← hlen] at *
    simp [Nat.not_lt.mpr hle]

/-- Witness for C1 at a concrete input: four nodes, all positive, default
polarity values: ready is true, and the characterisation holds. -/
theorem C1_ready_iff_count_gt3_and_polarity_sum_eq4_witness :
    ([Polarity.pos, .pos, .pos, .pos].length = ([(0:ℚ), 10, 10, 0]).length) ∧
    (gridReady defaultPolarityValue
        ⟨[Polarity.pos, .pos, .pos, .pos], [Polarity.pos, .pos, .pos, .pos],
         [(0:ℚ), 10, 10, 0], [(0:ℚ), 0, 10, 10]⟩ = true ↔
      3 < [Polarity.pos, .pos, .pos, .pos].length ∧
      (([Polarity.pos, .pos, .pos, .pos]).map defaultPolarityValue).sum = 4) := by
  constructor
  · rfl
  · exact (C1_ready_iff_count_gt3_and_polarity_sum_eq4 defaultPolarityValue
      ⟨[Polarity.pos, .pos, .pos, .pos], [Polarity.pos, .pos, .pos, .pos],
       [(0:ℚ), 10, 10, 0], [(0:ℚ), 0, 10, 10]⟩
      gridEditorNew [] rfl).1

/-- C2: with at least two nodes and a single selected edge index `i`
(`i + 1 < count`), the insert-node command succeeds and returns data with
exactly one new node inserted at position `i + 1`: the new node's `x` and `y`
are the midpoints of nodes `i` and `i + 1`, its polarity is `'+'`, every
column grows by exactly one entry, nodes before the insertion point keep
their position and data, and nodes from position `i + 1` on are shifted by
one position with their data unchanged. -/
theorem C2_insert_node_at_edge_midpoint
    (d : NodeData) (i : ℕ)
    (hxy : d.x.length = d.y.length) (hc : d.color.length = d.x.length)
    (hi : i + 1 < d.x.length) :
    ∃ r : PointsData,
      pointsCallback d (some [i]) true = .ok r ∧
      r.x.length = d.x.length + 1 ∧
      r.y.length = d.y.length + 1 ∧
      r.polarity.length = d.color.length + 1 ∧
      r.x[i + 1]? = some ((d.x.getD i 0 + d.x.getD (i + 1) 0) / 2) ∧
      r.y[i + 1]? = some ((d.y.getD i 0 + d.y.getD (i + 1) 0) / 2) ∧
      r.polarity[i + 1]? = some Polarity.pos ∧
      (∀ j, j < i + 1 →
        r.x[j]? = d.x[j]? ∧ r.y[j]? = d.y[j]? ∧ r.polarity[j]? = d.color[j]?) ∧
      (∀ j, i + 1 ≤ j →
        r.x[j + 1]? = d.x[j]? ∧ r.y[j + 1]? = d.y[j]? ∧
        r.polarity[j + 1]? = d.color[j]?) := by
  have hix : i < d.x.length := by omega
  have hiy : i < d.y.length := by omega
  have hi1y : i + 1 < d.y.length := by omega
  have hkx : i + 1 ≤ d.x.length := by omega
  have hky : i + 1 ≤ d.y.length := by omega
  have hkc : i + 1 ≤ d.color.length := by omega
  have hx0 : d.x[i]? = some (d.x.getD i 0) := by
    simp [List.getD_eq_getElem?_getD, List.getElem?_eq_getElem hix]
  have hx1 : d.x[i + 1]? = some (d.x.getD (i + 1) 0) := by
    simp [List.getD_eq_getElem?_getD, List.getElem?_eq_getElem hi]
  have hy0 : d.y[i]? = some (d.y.getD i 0) := by
    simp [List.getD_eq_getElem?_getD, List.getElem?_eq_getElem hiy]
  have hy1 : d.y[i + 1]? = some (d.y.getD (i + 1) 0) := by
    simp [List.getD_eq_getElem?_getD, List.getElem?_eq_getElem hi1y]
  refine ⟨⟨npInsert d.x (i + 1) ((d.x.getD i 0 + d.x.getD (i + 1) 0) / 2),
          npInsert d.y (i + 1) ((d.y.getD i 0 + d.y.getD (i + 1) 0) / 2),
          npInsert d.color (i + 1) .pos⟩, ?_, ?_, ?_, ?_, ?_, ?_, ?_, ?_, ?_⟩
  · simp only [pointsCallback, if_true]
    have h1 : ([i] : List ℕ).length = 1 := rfl
    rw [if_pos h1]
    simp only [List.headI, Nat.add_sub_cancel]
    rw [hx0, hx1, hy0, hy1]
  · exact npInsert_length _ _ _ hkx
  · exact npInsert_length _ _ _ hky
  · exact npInsert_length _ _ _ hkc
  · exact npInsert_getElem?_self _ _ _ hkx
  · exact npInsert_getElem?_self _ _ _ hky
  · exact npInsert_getElem?_self _ _ _ hkc
  · intro j hj
    exact ⟨npInsert_getElem?_lt _ _ _ hkx j hj,
           npInsert_getElem?_lt _ _ _ hky j hj,
           npInsert_getElem?_lt _ _ _ hkc j hj⟩
  · intro j hj
    exact ⟨npInsert_getElem?_gt _ _ _ hkx j hj,
           npInsert_getElem?_gt _ _ _ hky j hj,
           npInsert_getElem?_gt _ _ _ hkc j hj⟩

/-- A concrete two-node boundary used for witnesses and counterexamples:
nodes (0, 0) with polarity '+' and (2, 4) with polarity '-'. -/
def sampleD2 : NodeData :=
  ⟨[Polarity.pos, .neg], [Polarity.pos, .neg], [(0 : ℚ), 2], [(0 : ℚ), 4]⟩

/-- Witness for C2 at the concrete two-node boundary `sampleD2` with edge 0
selected. -/
theorem C2_insert_node_at_edge_midpoint_witness :
    sampleD2.x.length = sampleD2.y.length ∧
    sampleD2.color.length = sampleD2.x.length ∧
    0 + 1 < sampleD2.x.length ∧
    (∃ r : PointsData,
      pointsCallback sampleD2 (some [0]) true = .ok r ∧
      r.x.length = sampleD2.x.length + 1 ∧
      r.y.length = sampleD2.y.length + 1 ∧
      r.polarity.length = sampleD2.color.length + 1 ∧
      r.x[0 + 1]? = some ((sampleD2.x.getD 0 0 + sampleD2.x.getD (0 + 1) 0) / 2) ∧
      r.y[0 + 1]? = some ((sampleD2.y.getD 0 0 + sampleD2.y.getD (0 + 1) 0) / 2) ∧
      r.polarity[0 + 1]? = some Polarity.pos ∧
      (∀ j, j < 0 + 1 →
        r.x[j]? = sampleD2.x[j]? ∧ r.y[j]? = sampleD2.y[j]? ∧
        r.polarity[j]? = sampleD2.color[j]?) ∧
      (∀ j, 0 + 1 ≤ j →
        r.x[j + 1]? = sampleD2.x[j]? ∧ r.y[j + 1]? = sampleD2.y[j]? ∧
        r.polarity[j + 1]? = sampleD2.color[j]?)) :=
  ⟨rfl, rfl, by decide,
   C2_insert_node_at_edge_midpoint sampleD2 0 rfl rfl (by decide)⟩

/-- C6 counterexample: in the freshly constructed editor the edge-selection
state is still the Python `None` (no edge was ever selected), and an
insert-node request in that state is not silently ignored: evaluating
`len(self._selected_edge_index) == 1` raises a `TypeError`. -/
theorem C6_insert_with_initial_none_selection_raises :
    pointsCallback sampleD2 none true =
      .error "TypeError: object of type NoneType has no len()" ∧
    gridEditorNew.selected_edge_index = none := by
  exact ⟨rfl, rfl⟩

/-- C6 (amended): once the edge-selection state holds a list (as after any
run of the boundary callback), an insert-node request with an empty or
ambiguous selection (length ≠ 1) is silently ignored: no error is raised and
the returned node data is exactly the current columns, unmutated. -/
theorem C6_insert_with_non_single_selection_ignored
    (d : NodeData) (sel : List ℕ) (hsel : sel.length ≠ 1) :
    pointsCallback d (some sel) true = .ok ⟨d.x, d.y, d.color⟩ := by
  simp only [pointsCallback, if_true]
  rw [if_neg hsel]

/-- Witness for the amended C6 at the empty selection on `sampleD2`. -/
theorem C6_insert_with_non_single_selection_ignored_witness :
    ([] : List ℕ).length ≠ 1 ∧
    pointsCallback sampleD2 (some []) true =
      .ok ⟨sampleD2.x, sampleD2.y, sampleD2.color⟩ :=
  ⟨by decide, C6_insert_with_non_single_selection_ignored sampleD2 [] (by decide)⟩

/-- A concrete editor whose boundary is `sampleD2` with edge 0 selected. -/
def sampleEditorSel0 : Editor :=
  { data := sampleD2
    ready := false
    selected_edge_index := some [0]
    qmesh := initialQmesh
    grid := none
    config := defaultConfig }

/-- C9 counterexample: on `sampleEditorSel0` the insert-node command
completes and inserts a node (the returned data has three nodes), yet the
editor state it leaves behind is unchanged — in particular edge 0 is still
selected, not cleared; since the post-state equals the pre-state, a second
insert request without a new tap gesture performs the very same insertion
again rather than inserting nothing. -/
theorem C9_selection_not_cleared_by_insert :
    insertPointsCommand sampleEditorSel0 =
      .ok (sampleEditorSel0,
           ⟨[(0 : ℚ), 1, 2], [(0 : ℚ), 2, 4], [Polarity.pos, .pos, .neg]⟩) ∧
    sampleEditorSel0.selected_edge_index = some [0] := by
  constructor
  · norm_num [insertPointsCommand, pointsCallback, sampleEditorSel0, sampleD2, npInsert]
  · rfl

/-- C9 (amended): the insert-node command never modifies the editor state:
whenever it completes, the resulting editor is the input editor — the edge
selection is left as is (it is only replaced when the boundary callback next
runs with a fresh tap selection), and the stream data is untouched. -/
theorem C9_insert_command_leaves_editor_unchanged
    (e : Editor) (r : Editor × PointsData)
    (h : insertPointsCommand e = .ok r) : r.1 = e := by
  unfold insertPointsCommand at h
  cases hpc : pointsCallback e.data e.selected_edge_index true with
  | error s => rw [hpc] at h; exact absurd h (by simp)
  | ok pd =>
    rw [hpc] at h
    simp only [Except.ok.injEq] at h
    rw [← h]

/-- Witness for the amended C9 at `sampleEditorSel0`. -/
theorem C9_insert_command_leaves_editor_unchanged_witness :
    ((sampleEditorSel0,
      (⟨[(0 : ℚ), 1, 2], [(0 : ℚ), 2, 4], [Polarity.pos, .pos, .neg]⟩ : PointsData)) :
        Editor × PointsData).1 = sampleEditorSel0 :=
  C9_insert_command_leaves_editor_unchanged sampleEditorSel0
    (sampleEditorSel0, ⟨[(0 : ℚ), 1, 2], [(0 : ℚ), 2, 4], [Polarity.pos, .pos, .neg]⟩)
    (by norm_num [insertPointsCommand, pointsCallback, sampleEditorSel0, sampleD2, npInsert])

/-- C4: a mesh-generation request while the ready flag is false, and a hide
request in any state, return the previously cached mesh with visibility
cleared, raise no error (the callback is total), and leave the editor — in
particular the cached `qmesh` and the `grid` object — unchanged. -/
theorem C4_not_ready_or_hide_returns_hidden_cached_mesh
    (gen : GridgenArgs → Grid) (e : Editor) (gm hm : Bool)
    (h : e.ready = false ∨ hm = true) :
    generateMeshCallback gen e gm hm = (e, ⟨e.qmesh, false⟩) := by
  rcases h with h | h
  · simp [generateMeshCallback, h]
  · subst h
    cases hre : e.ready <;> simp [generateMeshCallback, hre]

/-- Witness for C4: generation requested on the fresh (not ready) editor. -/
theorem C4_not_ready_or_hide_returns_hidden_cached_mesh_witness :
    (gridEditorNew.ready = false ∨ (false : Bool) = true) ∧
    generateMeshCallback constGen gridEditorNew true false =
      (gridEditorNew, ⟨gridEditorNew.qmesh, false⟩) :=
  ⟨Or.inl rfl,
   C4_not_ready_or_hide_returns_hidden_cached_mesh constGen gridEditorNew
     true false (Or.inl rfl)⟩

/-- C7: when the ready flag is true, a mesh-generation request calls the
external routine with exactly the node x coordinates, node y coordinates,
the polarity-derived numeric weights, `shape = (xres, yres)`, `ul_idx`, and
the focus exactly when one is set (`none` embeds the omitted keyword); the
cached mesh is replaced wholesale by the QuadMesh of the new grid and the
grid object is stored.  This holds for every substitutable external routine
`gen`. -/
theorem C7_ready_generation_calls_routine_and_replaces_cache
    (gen : GridgenArgs → Grid) (e : Editor) (h : e.ready = true) :
    generateMeshCallback gen e true false =
      (let g := gen ⟨e.data.x, e.data.y,
                     e.data.color.map e.config.polarity_value,
                     (e.config.xres, e.config.yres),
                     e.config.ul_idx, e.config.focus⟩
       ({ e with grid := some g, qmesh := meshOfGrid g },
        ⟨meshOfGrid g, true⟩)) := by
  simp [generateMeshCallback, h, boundaryWeights]

/-- A four-node all-positive square boundary: polarity sum 4, count 4. -/
def sampleD4 : NodeData :=
  ⟨[Polarity.pos, .pos, .pos, .pos], [Polarity.pos, .pos, .pos, .pos],
   [(0 : ℚ), 10, 10, 0], [(0 : ℚ), 0, 10, 10]⟩

/-- The editor holding `sampleD4` after its boundary callback ran: the ready
flag is set. -/
def sampleReadyEditor : Editor :=
  { data := sampleD4
    ready := true
    selected_edge_index := some []
    qmesh := initialQmesh
    grid := none
    config := defaultConfig }

/-- Witness for C7 at the ready four-node editor and a concrete routine. -/
theorem C7_ready_generation_calls_routine_and_replaces_cache_witness :
    sampleReadyEditor.ready = true ∧
    generateMeshCallback constGen sampleReadyEditor true false =
      (let g := constGen ⟨sampleReadyEditor.data.x, sampleReadyEditor.data.y,
                 sampleReadyEditor.data.color.map
                   sampleReadyEditor.config.polarity_value,
                 (sampleReadyEditor.config.xres, sampleReadyEditor.config.yres),
                 sampleReadyEditor.config.ul_idx, sampleReadyEditor.config.focus⟩
       ({ sampleReadyEditor with grid := some g, qmesh := meshOfGrid g },
        ⟨meshOfGrid g, true⟩)) :=
  ⟨rfl,
   C7_ready_generation_calls_routine_and_replaces_cache constGen
     sampleReadyEditor rfl⟩

/-- C5 counterexample: on an editor with zero nodes, the export callback
skips the external GeoJSON driver entirely and returns the untouched byte
buffer — a zero-byte output, which is not a structurally valid
feature-collection document (it is not even a nonempty JSON object). -/
theorem C5_export_zero_nodes_yields_invalid_empty_bytes :
    geojsonCallback sampleSerializer defaultPolarityValue ⟨[], [], [], []⟩ = [] ∧
    isStructurallyValidFeatureCollection [] = false :=
  ⟨rfl, rfl⟩

/-- C5 (amended): the export operation on an editor whose boundary
DataFrame has zero rows raises no error and returns an empty, zero-byte
output — the external serializer is never invoked — rather than a
structurally valid empty feature-collection document. -/
theorem C5_export_zero_nodes_returns_empty_output
    (serializer : List (ℚ × ℚ × ℚ) → List Char) (pv : Polarity → ℚ)
    (d : NodeData) (h : (boundaryRows pv d).length = 0) :
    geojsonCallback serializer pv d = [] := by
  simp [geojsonCallback, h]

/-- Witness for the amended C5 at the empty node data. -/
theorem C5_export_zero_nodes_returns_empty_output_witness :
    (boundaryRows defaultPolarityValue ⟨[], [], [], []⟩).length = 0 ∧
    geojsonCallback sampleSerializer defaultPolarityValue ⟨[], [], [], []⟩ = [] :=
  ⟨rfl,
   C5_export_zero_nodes_returns_empty_output sampleSerializer
     defaultPolarityValue ⟨[], [], [], []⟩ rfl⟩

/-- C8: the serializable state record round-trips — constructing a new
editor from the record produced by the `data` accessor yields an editor
whose node columns, configuration and ready flag all equal the
original's. -/
theorem C8_state_record_round_trips (e : Editor) :
    (gridEditorFromData (editorData e)).data = e.data ∧
    (gridEditorFromData (editorData e)).config = e.config ∧
    (gridEditorFromData (editorData e)).ready = e.ready :=
  ⟨rfl, rfl, rfl⟩

/-- C10: constructing an editor from an empty boundary DataFrame does not
fail: it returns exactly the no-argument construction `GridEditor()` — a
fresh editor with zero nodes, every configuration field at its default, the
ready flag false, no generated grid and no edge selection. -/
theorem C10_from_geopandas_empty_returns_fresh_default_editor :
    from_geopandas [] = .ok gridEditorNew ∧
    gridEditorNew = gridEditorInit none defaultConfig false ∧
    gridEditorNew.data = ⟨[], [], [], []⟩ ∧
    gridEditorNew.config = defaultConfig ∧
    gridEditorNew.ready = false ∧
    gridEditorNew.grid = none ∧
    gridEditorNew.selected_edge_index = none :=
  ⟨rfl, rfl, rfl, rfl, rfl, rfl, rfl⟩

end Hologrid
